import Mathlib

/-!
# Intelligent street-lighting controller (`src/api/try.c`)

A shallow embedding of the ESP8266 sketch: the global variables become a
`State` record, every function of the sketch becomes a function on that
record, the values the hardware and the network hand to the sketch (pin
reads, `millis()`, ThingSpeak status codes) are gathered in a `CycleInput`
record, and what the sketch does to the outside world (`analogWrite`,
`ThingSpeak.writeFields`, `ThingSpeak.readIntField`) is returned as a list of
`Event`s.

C `int` is modelled by `Int` (all values the claims range over are far from
the 32-bit limits), `unsigned long` subtraction is modelled modulo `2 ^ 32`,
and the `double` arithmetic of the threshold formula is modelled exactly:
a binary64 value is an integer number of units of `2 ^ (-54)`, and every
operation is the exact operation followed by round-to-nearest-even to
53 significant bits.
-/

namespace StreetLight

/-! ## Constants of the sketch -/

/-- The `updateInterval` constant: 20000 ms. -/
def updateInterval : Int := 20000

/-- The `DARK_THRESHOLD` constant, the fallback used before calibration. -/
def DARK_THRESHOLD : Int := 300

/-- The `BASE_BRIGHTNESS` constant. -/
def BASE_BRIGHTNESS : Int := 200

/-- The `MOTION_BRIGHTNESS` constant, the maximum PWM level. -/
def MOTION_BRIGHTNESS : Int := 1023

/-- Width of `unsigned long` on the ESP8266: arithmetic is modulo `2 ^ 32`. -/
def ULONG_MOD : Int := 4294967296

/-! ## Global variables -/

/-- The global variables of the sketch, with their C initialisers in `init`. -/
structure State where
  ambience : Int
  motion_detected : Int
  user_override : Int
  lastUpdate : Int
  ldr_min : Int
  ldr_max : Int
  calibration_done : Bool
  deriving DecidableEq, Repr

/-- The initial values of the globals (lines 23-39 of the sketch). -/
def State.init : State :=
  { ambience := 0, motion_detected := 0, user_override := 0, lastUpdate := 0,
    ldr_min := 1024, ldr_max := 0, calibration_done := false }

/-! ## binary64 arithmetic of the threshold formula -/

/-- Number of fractional bits of the fixed unit: a value `n` stands for `n * 2 ^ (-54)`. -/
def FRAC_BITS : Nat := 54

/-- One, in units of `2 ^ (-54)`. -/
def UNIT : Nat := 2 ^ FRAC_BITS

/-- The `double` literal `0.3` is `5404319552844595 * 2 ^ (-54)`
(bit pattern `0x3FD3333333333333`). -/
def DOUBLE_0_3 : Nat := 5404319552844595

/-- Number of binary digits of `n`, by repeated halving (`fuel` bounds the number
of halvings). -/
def bitLengthAux : Nat → Nat → Nat
  | 0, _ => 0
  | fuel + 1, n => if n = 0 then 0 else bitLengthAux fuel (n / 2) + 1

/-- Number of binary digits of `n` (0 for 0); `n` halvings always suffice. -/
def bitLength (n : Nat) : Nat := bitLengthAux n n

/-- Round a non-negative magnitude to 53 significant bits, ties to even. -/
def roundNearestEven (n : Nat) : Nat :=
  let len := bitLength n
  if len ≤ 53 then n
  else
    let sh := len - 53
    let q := n / 2 ^ sh
    let r := n % 2 ^ sh
    let half := 2 ^ (sh - 1)
    if r > half ∨ (r = half ∧ q % 2 = 1) then (q + 1) * 2 ^ sh else q * 2 ^ sh

/-- Round an exact value (in units of `2 ^ (-54)`) to the nearest binary64 value;
rounding is symmetric in the sign. -/
def fl (x : Int) : Int :=
  if x < 0 then -((roundNearestEven x.natAbs : Nat) : Int)
  else ((roundNearestEven x.natAbs : Nat) : Int)

/-- The expression `(int)(ldr_min + (threshold_range * 0.3))` with
`threshold_range = ldr_max - ldr_min`, as written at lines 88-89 (setup) and
149-150 (loop): the product and the sum are binary64 operations, the
conversion to `int` truncates toward zero. -/
def computeThreshold (ldr_min ldr_max : Int) : Int :=
  let threshold_range := ldr_max - ldr_min
  let product := fl (threshold_range * (DOUBLE_0_3 : Int))
  let sum := fl (ldr_min * (UNIT : Int) + product)
  Int.tdiv sum (UNIT : Int)

/-- The threshold as the specification words it: `min + round((max - min) * 0.3)`,
with `round` rounding to the nearest integer and `0.3` the rational 3/10. -/
def thresholdSpec (observed_min observed_max : Int) : Int :=
  observed_min + round (((observed_max - observed_min : Int) : ℚ) * (3 / 10))

/-! ## Calibration (the `while` loop of `setup`) -/

/-- One iteration of the calibration loop body (lines 73-75). -/
def calibrationStep (st : State) (ldr_reading : Int) : State :=
  let st1 := if ldr_reading < st.ldr_min then { st with ldr_min := ldr_reading } else st
  if ldr_reading > st1.ldr_max then { st1 with ldr_max := ldr_reading } else st1

/-- The calibration loop run over the readings `analogRead(ldr)` returned
during the window, in order. -/
def calibrationLoop (st : State) (readings : List Int) : State :=
  readings.foldl calibrationStep st

/-- The state-changing part of `setup`: calibration from the current
globals, then `calibration_done = true`; also returns the printed
`dynamic_threshold`. -/
def setup (st : State) (readings : List Int) : State × Int :=
  let st1 := calibrationLoop st readings
  let dynamic_threshold := computeThreshold st1.ldr_min st1.ldr_max
  ({ st1 with calibration_done := true }, dynamic_threshold)

/-! ## Light control -/

/-- The three values passed to `analogWrite(led1 ..)`, `analogWrite(led2 ..)`,
`analogWrite(led3 ..)` by one call of `controlLights`. -/
structure LedLevels where
  led1 : Int
  led2 : Int
  led3 : Int
  deriving DecidableEq, Repr

/-- The function `controlLights(s1, s2, s3, is_dark)` (lines 198-265); it reads the
globals `user_override` and `motion_detected`. C truthiness of an `int` is
`≠ 0`. -/
def controlLights (st : State) (s1 s2 s3 : Int) (is_dark : Bool) : LedLevels :=
  let brightness : Int :=
    if st.user_override = 1 then MOTION_BRIGHTNESS
    else if st.user_override = 2 then 0
    else
      if is_dark then
        if st.motion_detected ≠ 0 then MOTION_BRIGHTNESS else BASE_BRIGHTNESS
      else 0
  if st.user_override ≠ 0 then
    { led1 := brightness, led2 := brightness, led3 := brightness }
  else
    if is_dark then
      { led1 := if s1 ≠ 0 then brightness else Int.tdiv BASE_BRIGHTNESS 3,
        led2 := if s2 ≠ 0 then brightness else Int.tdiv BASE_BRIGHTNESS 3,
        led3 := if s3 ≠ 0 then brightness else Int.tdiv BASE_BRIGHTNESS 3 }
    else
      { led1 := 0, led2 := 0, led3 := 0 }

/-! ## Telemetry -/

/-- The function `updateThingSpeak()` (lines 267-282): the status `x` returned by
`writeFields` is only printed, so no global changes. Returns the three
fields that were set. -/
def updateThingSpeak (st : State) (x : Int) : State × (Int × Int × Int) :=
  let st1 := if x = 200 then st else st
  (st1, (st.ambience, st.motion_detected, st.user_override))

/-- The function `readUserOverride()` (lines 284-298): `override_value` is what
`readIntField` returned and `statusCode` what `getLastReadStatus` returned. -/
def readUserOverride (st : State) (override_value statusCode : Int) : State :=
  if statusCode = 200 then { st with user_override := override_value } else st

/-! ## The control cycle -/

/-- What the outside world hands to one run of `loop()`. -/
structure CycleInput where
  /-- Raw `digitalRead(ir1)`. -/
  ir1 : Int
  /-- Raw `digitalRead(ir2)`. -/
  ir2 : Int
  /-- Raw `digitalRead(ir3)`. -/
  ir3 : Int
  /-- Raw `analogRead(ldr)`. -/
  ldr : Int
  /-- Whether `WiFi.status() == WL_CONNECTED`. -/
  connected : Bool
  /-- Value of `millis()` in the condition at line 187. -/
  now : Int
  /-- Status returned by `ThingSpeak.writeFields`, if it is called. -/
  writeStatus : Int
  /-- Value returned by `ThingSpeak.readIntField`, if it is called. -/
  readValue : Int
  /-- Status returned by `ThingSpeak.getLastReadStatus`, if it is called. -/
  readStatus : Int
  /-- Value of `millis()` at line 191, after the two network calls. -/
  nowAfter : Int
  deriving DecidableEq, Repr

/-- Effects of the sketch on the outside world. -/
inductive Event where
  | analogWrite (led : Nat) (level : Int)
  | writeFields (field1 field2 field3 : Int)
  | readIntField (field : Nat)
  deriving DecidableEq, Repr

/-- C logical negation of an `int`. -/
def cNot (s : Int) : Int := if s = 0 then 1 else 0

/-- The comparison at line 154: `is_dark = ambience > current_threshold`. -/
def isDark (ambience current_threshold : Int) : Bool :=
  decide (ambience > current_threshold)

/-- The local variables of `loop()` after line 154. -/
structure Snapshot where
  s1 : Int
  s2 : Int
  s3 : Int
  current_threshold : Int
  is_dark : Bool
  deriving DecidableEq, Repr

/-- The value of `current_threshold` (lines 147-151). -/
def currentThreshold (st : State) : Int :=
  if st.calibration_done then computeThreshold st.ldr_min st.ldr_max else DARK_THRESHOLD

/-- Lines 131-154 of `loop()`: sensor reads, the globals `ambience` and
`motion_detected`, the threshold and the darkness flag. -/
def loopSense (st : State) (inp : CycleInput) : State × Snapshot :=
  let s1 := cNot inp.ir1
  let s2 := cNot inp.ir2
  let s3 := cNot inp.ir3
  let ambience := 1024 - inp.ldr
  let motion_detected : Int := if s1 ≠ 0 ∨ s2 ≠ 0 ∨ s3 ≠ 0 then 1 else 0
  let current_threshold := currentThreshold st
  let is_dark : Bool := isDark ambience current_threshold
  ({ st with ambience := ambience, motion_detected := motion_detected },
   { s1 := s1, s2 := s2, s3 := s3, current_threshold := current_threshold,
     is_dark := is_dark })

/-- The unsigned difference `millis() - lastUpdate`. -/
def elapsed (now lastUpdate : Int) : Int := (now - lastUpdate) % ULONG_MOD

/-- The condition of the `if` at line 187. -/
def telemetryDue (st : State) (inp : CycleInput) : Bool :=
  inp.connected && decide (elapsed inp.now st.lastUpdate > updateInterval)

/-- Lines 187-192 of `loop()`. -/
def loopTelemetry (st : State) (inp : CycleInput) : State × List Event :=
  if telemetryDue st inp then
    let pushed := updateThingSpeak st inp.writeStatus
    let st2 := readUserOverride pushed.1 inp.readValue inp.readStatus
    ({ st2 with lastUpdate := inp.nowAfter },
     [Event.writeFields pushed.2.1 pushed.2.2.1 pushed.2.2.2, Event.readIntField 3])
  else (st, [])

/-- One run of `loop()`: the new globals and the effects, in order. -/
def loop (st : State) (inp : CycleInput) : State × List Event :=
  let sensed := loopSense st inp
  let leds := controlLights sensed.1 sensed.2.s1 sensed.2.s2 sensed.2.s3 sensed.2.is_dark
  let tele := loopTelemetry sensed.1 inp
  (tele.1, [Event.analogWrite 1 leds.led1, Event.analogWrite 2 leds.led2,
            Event.analogWrite 3 leds.led3] ++ tele.2)

/-- Whether an event is the push of the three fields. -/
def Event.isPush : Event → Bool
  | Event.writeFields _ _ _ => true
  | _ => false

/-- Whether an event is the override read. -/
def Event.isRead : Event → Bool
  | Event.readIntField _ => true
  | _ => false

/-- Consecutive runs of `loop()`, one per input, with all their effects in order. -/
def runCycles (st : State) : List CycleInput → State × List Event
  | [] => (st, [])
  | inp :: rest =>
    let first := loop st inp
    let others := runCycles first.1 rest
    (others.1, first.2 ++ others.2)

/-- The levels of the three `analogWrite` calls at the head of a cycle's effects. -/
def writtenLevels : List Event → Option LedLevels
  | Event.analogWrite 1 a :: Event.analogWrite 2 b :: Event.analogWrite 3 c :: _ =>
      some { led1 := a, led2 := b, led3 := c }
  | _ => none

/-! ## Calibration bounds -/

/-- The lower bound after one sample. -/
theorem calibrationStep_ldr_min (st : State) (r : Int) :
    (calibrationStep st r).ldr_min = if r < st.ldr_min then r else st.ldr_min := by
  unfold calibrationStep
  by_cases h1 : r < st.ldr_min <;> by_cases h2 : r > st.ldr_max <;> simp [h1, h2]

/-- The upper bound after one sample. -/
theorem calibrationStep_ldr_max (st : State) (r : Int) :
    (calibrationStep st r).ldr_max = if r > st.ldr_max then r else st.ldr_max := by
  unfold calibrationStep
  by_cases h1 : r < st.ldr_min <;> by_cases h2 : r > st.ldr_max <;> simp [h1, h2]

/-- After the loop `ldr_min` is below its start value and below every sample, and
it is the start value or one of the samples. -/
theorem calibrationLoop_ldr_min (readings : List Int) (st : State) :
    (calibrationLoop st readings).ldr_min ≤ st.ldr_min
      ∧ (∀ r ∈ readings, (calibrationLoop st readings).ldr_min ≤ r)
      ∧ ((calibrationLoop st readings).ldr_min = st.ldr_min
          ∨ (calibrationLoop st readings).ldr_min ∈ readings) := by
  induction readings generalizing st with
  | nil => simp [calibrationLoop]
  | cons x xs ih =>
    have hstep : calibrationLoop st (x :: xs) = calibrationLoop (calibrationStep st x) xs := rfl
    have hmin := calibrationStep_ldr_min st x
    obtain ⟨h1, h2, h3⟩ := ih (calibrationStep st x)
    rw [hstep]
    rw [hmin] at h1 h3
    refine ⟨by split at h1 <;> omega, ?_, ?_⟩
    · intro r hr
      rcases List.mem_cons.mp hr with rfl | hr
      · split at h1 <;> omega
      · exact h2 r hr
    · rcases h3 with h3 | h3
      · by_cases hx : x < st.ldr_min
        · right; rw [h3, if_pos hx]; exact List.mem_cons_self _ _
        · left; rw [h3, if_neg hx]
      · right; exact List.mem_cons_of_mem _ h3

/-- After the loop `ldr_max` is above its start value and above every sample, and
it is the start value or one of the samples. -/
theorem calibrationLoop_ldr_max (readings : List Int) (st : State) :
    st.ldr_max ≤ (calibrationLoop st readings).ldr_max
      ∧ (∀ r ∈ readings, r ≤ (calibrationLoop st readings).ldr_max)
      ∧ ((calibrationLoop st readings).ldr_max = st.ldr_max
          ∨ (calibrationLoop st readings).ldr_max ∈ readings) := by
  induction readings generalizing st with
  | nil => simp [calibrationLoop]
  | cons x xs ih =>
    have hstep : calibrationLoop st (x :: xs) = calibrationLoop (calibrationStep st x) xs := rfl
    have hmax := calibrationStep_ldr_max st x
    obtain ⟨h1, h2, h3⟩ := ih (calibrationStep st x)
    rw [hstep]
    rw [hmax] at h1 h3
    refine ⟨by split at h1 <;> omega, ?_, ?_⟩
    · intro r hr
      rcases List.mem_cons.mp hr with rfl | hr
      · split at h1 <;> omega
      · exact h2 r hr
    · rcases h3 with h3 | h3
      · by_cases hx : x > st.ldr_max
        · right; rw [h3, if_pos hx]; exact List.mem_cons_self _ _
        · left; rw [h3, if_neg hx]
      · right; exact List.mem_cons_of_mem _ h3

/-- From the initial globals and samples in [0, 1024], the loop ends with `ldr_min` the
least sample and `ldr_max` the greatest. -/
theorem calibrationLoop_init (readings : List Int) (hne : readings ≠ [])
    (hrange : ∀ r ∈ readings, 0 ≤ r ∧ r ≤ 1024) :
    (calibrationLoop State.init readings).ldr_min ∈ readings
      ∧ (∀ r ∈ readings, (calibrationLoop State.init readings).ldr_min ≤ r)
      ∧ (calibrationLoop State.init readings).ldr_max ∈ readings
      ∧ (∀ r ∈ readings, r ≤ (calibrationLoop State.init readings).ldr_max) := by
  obtain ⟨_, hmin2, hmin3⟩ := calibrationLoop_ldr_min readings State.init
  obtain ⟨_, hmax2, hmax3⟩ := calibrationLoop_ldr_max readings State.init
  obtain ⟨x, hx⟩ := List.exists_mem_of_ne_nil readings hne
  refine ⟨?_, hmin2, ?_, hmax2⟩
  · rcases hmin3 with h | h
    · have h1024 : (calibrationLoop State.init readings).ldr_min = 1024 := h
      have hxeq : x = (calibrationLoop State.init readings).ldr_min := by
        have := hmin2 x hx
        have := (hrange x hx).2
        omega
      rw [← hxeq]
      exact hx
    · exact h
  · rcases hmax3 with h | h
    · have h0 : (calibrationLoop State.init readings).ldr_max = 0 := h
      have hxeq : x = (calibrationLoop State.init readings).ldr_max := by
        have := hmax2 x hx
        have := (hrange x hx).1
        omega
      rw [← hxeq]
      exact hx
    · exact h

/-! ## The binary64 threshold formula -/

/-- A number below `2 ^ k` has at most `k` binary digits. -/
theorem bitLengthAux_le (fuel : Nat) : ∀ n k : Nat, n < 2 ^ k → bitLengthAux fuel n ≤ k := by
  induction fuel with
  | zero => intro n k _; simp [bitLengthAux]
  | succ f ih =>
    intro n k hn
    unfold bitLengthAux
    split
    · omega
    · rename_i hn0
      cases k with
      | zero => simp at hn; omega
      | succ k =>
        have hhalf : n / 2 < 2 ^ k := by
          rw [Nat.pow_succ] at hn
          omega
        have := ih (n / 2) k hhalf
        omega

/-- Rounding a sum `a + p` below 2048 to binary64 keeps its integer part when the
fractional part of `p` is at least `2 ^ (-42)` away from 1. -/
theorem roundNearestEven_floor (a p : Nat) (hN : a * UNIT + p < 2 ^ 65)
    (hp : p % UNIT + 4096 < UNIT) :
    roundNearestEven (a * UNIT + p) / UNIT = a + p / UNIT := by
  have hlen : bitLength (a * UNIT + p) ≤ 65 := bitLengthAux_le _ _ _ hN
  have hU : UNIT = 18014398509481984 := by decide
  rw [hU] at hp ⊢
  unfold roundNearestEven
  simp only []
  split
  · omega
  · rename_i hgt
    simp only [hU] at hlen
    generalize hs : bitLength (a * 18014398509481984 + p) - 53 = sh
    have h1 : 1 ≤ sh := by omega
    have h2 : sh ≤ 12 := by omega
    clear hs hlen hgt
    interval_cases sh <;> norm_num <;> split <;> omega

set_option maxRecDepth 100000 in
/-- The binary64 product `r * 0.3` for every range `r` in [0, 1024]: its integer part
is `3 * r / 10` and its fractional part stays clear of 1. -/
theorem product_table :
    ∀ r, r < 1025 →
      roundNearestEven (r * DOUBLE_0_3) / UNIT = 3 * r / 10
        ∧ roundNearestEven (r * DOUBLE_0_3) % UNIT + 4096 < UNIT
        ∧ roundNearestEven (r * DOUBLE_0_3) < 2 ^ 63 := by
  decide

/-- The threshold expression on calibrated bounds `0 ≤ mn ≤ mx ≤ 1024`. -/
theorem computeThreshold_eq (mn mx : Int) (h0 : 0 ≤ mn) (h1 : mn ≤ mx) (h2 : mx ≤ 1024) :
    computeThreshold mn mx = mn + 3 * (mx - mn) / 10 := by
  obtain ⟨a, rfl⟩ := Int.eq_ofNat_of_zero_le h0
  obtain ⟨r, hr⟩ := Int.eq_ofNat_of_zero_le (show 0 ≤ mx - (a : Int) by omega)
  have hr' : r < 1025 := by omega
  have ha : a ≤ 1024 := by omega
  obtain ⟨t1, t2, t3⟩ := product_table r hr'
  have hU : UNIT = 18014398509481984 := by decide
  have hfl1 : fl ((r : Int) * (DOUBLE_0_3 : Int))
      = ((roundNearestEven (r * DOUBLE_0_3) : Nat) : Int) := by
    have hcast : ((r : Int) * (DOUBLE_0_3 : Int)) = ((r * DOUBLE_0_3 : Nat) : Int) := by
      push_cast; rfl
    rw [hcast]
    unfold fl
    rw [if_neg (by omega), Int.natAbs_ofNat]
  have hfl2 : fl ((a : Int) * (UNIT : Int) + ((roundNearestEven (r * DOUBLE_0_3) : Nat) : Int))
      = ((roundNearestEven (a * UNIT + roundNearestEven (r * DOUBLE_0_3)) : Nat) : Int) := by
    have hcast : ((a : Int) * (UNIT : Int) + ((roundNearestEven (r * DOUBLE_0_3) : Nat) : Int))
        = ((a * UNIT + roundNearestEven (r * DOUBLE_0_3) : Nat) : Int) := by push_cast; rfl
    rw [hcast]
    unfold fl
    rw [if_neg (by omega), Int.natAbs_ofNat]
  have hfloor := roundNearestEven_floor a (roundNearestEven (r * DOUBLE_0_3))
    (by rw [hU]; omega) t2
  unfold computeThreshold
  simp only []
  rw [hr, hfl1, hfl2, Int.tdiv_eq_ediv (Int.ofNat_zero_le _) (Int.ofNat_zero_le _)]
  rw [← Int.ofNat_ediv, hfloor, t1]
  push_cast
  omega

/-! ## Calibration result -/

/-- C3: for a non-empty run of samples in [0, 1024], starting from `ldr_min = 1024` and
`ldr_max = 0`, calibration ends with `ldr_min` the smallest sample and `ldr_max` the
largest, so `ldr_min ≤ ldr_max`; samples all equal to 512 give bounds 512, 512 and
threshold 512; samples 100 and 900 (both occurring) give bounds 100, 900 and
threshold 340. -/
theorem calibration_min_max (readings : List Int) (hne : readings ≠ [])
    (hrange : ∀ r ∈ readings, 0 ≤ r ∧ r ≤ 1024) :
    State.init.ldr_min = 1024 ∧ State.init.ldr_max = 0
      ∧ (setup State.init readings).1.ldr_min ∈ readings
      ∧ (∀ r ∈ readings, (setup State.init readings).1.ldr_min ≤ r)
      ∧ (setup State.init readings).1.ldr_max ∈ readings
      ∧ (∀ r ∈ readings, r ≤ (setup State.init readings).1.ldr_max)
      ∧ (setup State.init readings).1.ldr_min ≤ (setup State.init readings).1.ldr_max
      ∧ ((∀ r ∈ readings, r = 512) →
          (setup State.init readings).1.ldr_min = 512
            ∧ (setup State.init readings).1.ldr_max = 512
            ∧ (setup State.init readings).2 = 512)
      ∧ ((∀ r ∈ readings, r = 100 ∨ r = 900) → 100 ∈ readings → 900 ∈ readings →
          (setup State.init readings).1.ldr_min = 100
            ∧ (setup State.init readings).1.ldr_max = 900
            ∧ (setup State.init readings).2 = 340) := by
  obtain ⟨hmin1, hmin2, hmax1, hmax2⟩ := calibrationLoop_init readings hne hrange
  have hfst_min : (setup State.init readings).1.ldr_min
      = (calibrationLoop State.init readings).ldr_min := rfl
  have hfst_max : (setup State.init readings).1.ldr_max
      = (calibrationLoop State.init readings).ldr_max := rfl
  have hsnd : (setup State.init readings).2
      = computeThreshold (calibrationLoop State.init readings).ldr_min
          (calibrationLoop State.init readings).ldr_max := rfl
  rw [hfst_min, hfst_max, hsnd]
  refine ⟨rfl, rfl, hmin1, hmin2, hmax1, hmax2, ?_, ?_, ?_⟩
  · exact hmin2 _ hmax1
  · intro hall
    have e1 := hall _ hmin1
    have e2 := hall _ hmax1
    rw [e1, e2]
    exact ⟨rfl, rfl, by decide⟩
  · intro hall h100 h900
    have e1 : (calibrationLoop State.init readings).ldr_min = 100 := by
      have := hmin2 100 h100
      rcases hall _ hmin1 with h | h <;> omega
    have e2 : (calibrationLoop State.init readings).ldr_max = 900 := by
      have := hmax2 900 h900
      rcases hall _ hmax1 with h | h <;> omega
    rw [e1, e2]
    exact ⟨rfl, rfl, by decide⟩

/-- Instance of C3 on the samples 100, 900, 100, 900: bounds 100 and 900,
threshold 340. -/
theorem calibration_min_max_witness :
    (setup State.init [100, 900, 100, 900]).1.ldr_min = 100
      ∧ (setup State.init [100, 900, 100, 900]).1.ldr_max = 900
      ∧ (setup State.init [100, 900, 100, 900]).2 = 340 :=
  (calibration_min_max [100, 900, 100, 900] (by decide) (by decide)).2.2.2.2.2.2.2.2
    (by decide) (by decide) (by decide)

/-! ## Threshold value -/

/-- C4, as the code has it: for stored bounds `0 ≤ min ≤ max ≤ 1024` the threshold of the
code, at calibration time and at run time alike, is `min` plus `(max - min) * 0.3`
rounded down (the conversion to `int` truncates), that is `min + 3 * (max - min) / 10`
in integer division. -/
theorem threshold_floor (mn mx : Int) (h0 : 0 ≤ mn) (h1 : mn ≤ mx) (h2 : mx ≤ 1024)
    (st : State) (readings : List Int) :
    computeThreshold mn mx = mn + ⌊((mx - mn : Int) : ℚ) * (3 / 10)⌋
      ∧ computeThreshold mn mx = mn + 3 * (mx - mn) / 10
      ∧ currentThreshold { st with ldr_min := mn, ldr_max := mx, calibration_done := true }
          = mn + 3 * (mx - mn) / 10
      ∧ (setup st readings).2 = currentThreshold (setup st readings).1 := by
  have hmain := computeThreshold_eq mn mx h0 h1 h2
  refine ⟨?_, hmain, ?_, rfl⟩
  · rw [hmain]
    congr 1
    have hq : ((mx - mn : Int) : ℚ) * (3 / 10) = ((3 * (mx - mn) : Int) : ℚ) / ((10 : Nat) : ℚ) := by
      push_cast
      ring
    rw [hq, Rat.floor_intCast_div_natCast]
    rfl
  · simp [currentThreshold, hmain]

/-- Instance of the amended C4 at bounds 0 and 9: `9 * 0.3 = 2.7` gives threshold 2. -/
theorem threshold_floor_witness : computeThreshold 0 9 = 0 + 3 * (9 - 0) / 10 :=
  (threshold_floor 0 9 (by decide) (by decide) (by decide) State.init []).2.1

/-- C4 as stated fails: with bounds 0 and 9 the code yields threshold 2, while
`min + round((max - min) * 0.3) = 0 + round(2.7) = 3`. -/
theorem threshold_round_counterexample :
    (0 : Int) ≤ 0 ∧ (0 : Int) ≤ 9 ∧ (9 : Int) ≤ 1024
      ∧ computeThreshold 0 9 = 2
      ∧ currentThreshold { State.init with ldr_min := 0, ldr_max := 9, calibration_done := true }
          = 2
      ∧ (setup State.init [0, 9]).2 = 2
      ∧ thresholdSpec 0 9 = 3 := by
  refine ⟨by decide, by decide, by decide, by decide, by decide, by decide, ?_⟩
  unfold thresholdSpec
  norm_num [round_eq]

/-! ## Structure of one cycle -/

/-- A cycle always starts by writing the three levels chosen by `controlLights`. -/
theorem writtenLevels_loop (st : State) (inp : CycleInput) :
    writtenLevels (loop st inp).2
      = some (controlLights (loopSense st inp).1 (loopSense st inp).2.s1
          (loopSense st inp).2.s2 (loopSense st inp).2.s3 (loopSense st inp).2.is_dark) := by
  simp [loop, writtenLevels]

/-- The effects of a cycle after the three writes: the push and the override read
when the gate at line 187 is open, nothing otherwise. -/
theorem loop_events_drop (st : State) (inp : CycleInput) :
    (loop st inp).2.drop 3
      = if telemetryDue st inp then
          [Event.writeFields (1024 - inp.ldr) (loopSense st inp).1.motion_detected
             st.user_override, Event.readIntField 3]
        else [] := by
  have hdue : telemetryDue (loopSense st inp).1 inp = telemetryDue st inp := rfl
  simp only [loop, loopTelemetry, hdue]
  cases telemetryDue st inp <;> simp [updateThingSpeak, loopSense]

/-- The push is among the effects of a cycle exactly when the gate is open. -/
theorem loop_any_isPush (st : State) (inp : CycleInput) :
    (loop st inp).2.any Event.isPush = telemetryDue st inp := by
  have hdue : telemetryDue (loopSense st inp).1 inp = telemetryDue st inp := rfl
  simp only [loop, loopTelemetry, hdue]
  cases telemetryDue st inp <;> simp [Event.isPush]

/-- The override read is among the effects of a cycle exactly when the gate is open. -/
theorem loop_any_isRead (st : State) (inp : CycleInput) :
    (loop st inp).2.any Event.isRead = telemetryDue st inp := by
  have hdue : telemetryDue (loopSense st inp).1 inp = telemetryDue st inp := rfl
  simp only [loop, loopTelemetry, hdue]
  cases telemetryDue st inp <;> simp [Event.isRead]

/-- The globals after a cycle whose gate is open. -/
theorem loop_state_of_due (st : State) (inp : CycleInput) (h : telemetryDue st inp = true) :
    (loop st inp).1
      = { readUserOverride (loopSense st inp).1 inp.readValue inp.readStatus with
          lastUpdate := inp.nowAfter } := by
  have hdue : telemetryDue (loopSense st inp).1 inp = true := h
  simp [loop, loopTelemetry, hdue, updateThingSpeak]

/-- The globals after a cycle whose gate is closed. -/
theorem loop_state_of_not_due (st : State) (inp : CycleInput)
    (h : telemetryDue st inp = false) :
    (loop st inp).1 = (loopSense st inp).1 := by
  have hdue : telemetryDue (loopSense st inp).1 inp = false := h
  simp [loop, loopTelemetry, hdue]

/-- The gate spelled out. -/
theorem telemetryDue_iff (st : State) (inp : CycleInput) :
    telemetryDue st inp = true
      ↔ inp.connected = true ∧ elapsed inp.now st.lastUpdate > 20000 := by
  simp [telemetryDue, updateInterval]

/-- Cycles whose clocks all lie within the interval of `lastUpdate` send nothing and
leave `lastUpdate` alone. -/
theorem runCycles_quiet (later : List CycleInput) :
    ∀ st : State, (∀ l ∈ later, elapsed l.now st.lastUpdate ≤ updateInterval) →
      (runCycles st later).2.any Event.isPush = false
        ∧ (runCycles st later).2.any Event.isRead = false
        ∧ (runCycles st later).1.lastUpdate = st.lastUpdate := by
  induction later with
  | nil => intro st _; simp [runCycles]
  | cons inp rest ih =>
    intro st hall
    have hinp := hall inp (List.mem_cons_self _ _)
    have hd : telemetryDue st inp = false := by
      simp only [telemetryDue, Bool.and_eq_false_imp, decide_eq_false_iff_not]
      intro _
      omega
    have hlast : (loop st inp).1.lastUpdate = st.lastUpdate := by
      rw [loop_state_of_not_due st inp hd]
      rfl
    obtain ⟨h1, h2, h3⟩ := ih (loop st inp).1 (by
      intro l hl
      rw [hlast]
      exact hall l (List.mem_cons_of_mem _ hl))
    have hp := loop_any_isPush st inp
    have hr := loop_any_isRead st inp
    rw [hd] at hp hr
    simp only [runCycles, List.any_append, hp, hr, h1, h2, Bool.or_self, true_and]
    rw [h3, hlast]

/-! ## Facts about `controlLights` -/

/-- C1: with `user_override = 1` all three channels are written 1023 and with
`user_override = 2` all three are written 0, for every darkness flag, every
motion vector and every value of `motion_detected` (and of the other globals). -/
theorem controlLights_override (st : State) (s1 s2 s3 : Int) (is_dark : Bool) :
    controlLights { st with user_override := 1 } s1 s2 s3 is_dark
        = { led1 := 1023, led2 := 1023, led3 := 1023 }
      ∧ controlLights { st with user_override := 2 } s1 s2 s3 is_dark
        = { led1 := 0, led2 := 0, led3 := 0 }
      ∧ MOTION_BRIGHTNESS = 1023 := by
  refine ⟨?_, ?_, rfl⟩ <;> simp [controlLights, MOTION_BRIGHTNESS]

/-- C2: with `user_override = 0` and `motion_detected` set as the cycle sets it
(1 iff `s1 || s2 || s3`), channel `i` is written 0 when not dark, and when dark
1023 if `s_i` is true and 66 = 200 / 3 otherwise; the same holds for the levels
written by a whole run of `loop()`, whose motion flags are the negated pin
reads. Dark with motion (1,0,0) gives (1023, 66, 66); dark without motion gives
(66, 66, 66). -/
theorem controlLights_no_override (st : State) (s1 s2 s3 : Int) (is_dark : Bool)
    (inp : CycleInput) :
    controlLights { st with user_override := 0,
                            motion_detected := if s1 ≠ 0 ∨ s2 ≠ 0 ∨ s3 ≠ 0 then 1 else 0 }
        s1 s2 s3 is_dark
        = { led1 := if is_dark then (if s1 ≠ 0 then 1023 else 66) else 0,
            led2 := if is_dark then (if s2 ≠ 0 then 1023 else 66) else 0,
            led3 := if is_dark then (if s3 ≠ 0 then 1023 else 66) else 0 }
      ∧ writtenLevels (loop { st with user_override := 0 } inp).2
        = some
          { led1 := if isDark (1024 - inp.ldr) (currentThreshold st)
                    then (if inp.ir1 = 0 then 1023 else 66) else 0,
            led2 := if isDark (1024 - inp.ldr) (currentThreshold st)
                    then (if inp.ir2 = 0 then 1023 else 66) else 0,
            led3 := if isDark (1024 - inp.ldr) (currentThreshold st)
                    then (if inp.ir3 = 0 then 1023 else 66) else 0 }
      ∧ controlLights { st with user_override := 0, motion_detected := 1 } 1 0 0 true
        = { led1 := 1023, led2 := 66, led3 := 66 }
      ∧ controlLights { st with user_override := 0, motion_detected := 0 } 0 0 0 true
        = { led1 := 66, led2 := 66, led3 := 66 }
      ∧ Int.tdiv BASE_BRIGHTNESS 3 = 66 := by
  have h66 : Int.tdiv BASE_BRIGHTNESS 3 = 66 := by decide
  refine ⟨?_, ?_, ?_, ?_, h66⟩
  · cases is_dark
    · simp [controlLights]
    · by_cases h1 : s1 = 0 <;> by_cases h2 : s2 = 0 <;> by_cases h3 : s3 = 0 <;>
        simp [controlLights, h66, MOTION_BRIGHTNESS, h1, h2, h3]
  · rw [writtenLevels_loop]
    have hthr : currentThreshold { st with user_override := 0 } = currentThreshold st := rfl
    simp only [loopSense, cNot, hthr]
    cases isDark (1024 - inp.ldr) (currentThreshold st)
    · simp [controlLights]
    · by_cases h1 : inp.ir1 = 0 <;> by_cases h2 : inp.ir2 = 0 <;> by_cases h3 : inp.ir3 = 0 <;>
        simp [controlLights, h66, MOTION_BRIGHTNESS, h1, h2, h3]
  · simp [controlLights, h66, MOTION_BRIGHTNESS]
  · simp [controlLights, h66]

/-- C10: for an override value outside {0, 1, 2} all three channels are written
the one scalar level of the sensor logic (1023 if dark with `motion_detected`,
200 if dark without, 0 if not dark), whatever the per-channel motion flags;
`readUserOverride` stores any integer it is handed with status 200. With
override 3 and darkness, motion (1,0,0) gives (1023, 1023, 1023) and no motion
gives (200, 200, 200). -/
theorem controlLights_unknown_override (st : State) (s1 s2 s3 : Int) (is_dark : Bool)
    (h0 : st.user_override ≠ 0) (h1 : st.user_override ≠ 1) (h2 : st.user_override ≠ 2) :
    controlLights st s1 s2 s3 is_dark
        = { led1 := if is_dark then (if st.motion_detected ≠ 0 then 1023 else 200) else 0,
            led2 := if is_dark then (if st.motion_detected ≠ 0 then 1023 else 200) else 0,
            led3 := if is_dark then (if st.motion_detected ≠ 0 then 1023 else 200) else 0 }
      ∧ (∀ (prior : State) (v : Int), (readUserOverride prior v 200).user_override = v)
      ∧ controlLights { st with user_override := 3, motion_detected := 1 } 1 0 0 true
        = { led1 := 1023, led2 := 1023, led3 := 1023 }
      ∧ controlLights { st with user_override := 3, motion_detected := 0 } 0 0 0 true
        = { led1 := 200, led2 := 200, led3 := 200 }
      ∧ BASE_BRIGHTNESS = 200 := by
  refine ⟨?_, ?_, ?_, ?_, rfl⟩
  · simp [controlLights, h0, h1, h2, MOTION_BRIGHTNESS, BASE_BRIGHTNESS]
  · intro prior v
    simp [readUserOverride]
  · simp [controlLights, MOTION_BRIGHTNESS]
  · simp [controlLights, BASE_BRIGHTNESS]

/-- Instance of C10 at override 3, dark, motion (1,0,0): the levels are
(1023, 1023, 1023), where override 0 writes (1023, 66, 66). -/
theorem controlLights_unknown_override_witness :
    controlLights { State.init with user_override := 3, motion_detected := 1 } 1 0 0 true
        = { led1 := 1023, led2 := 1023, led3 := 1023 }
      ∧ controlLights { State.init with user_override := 0, motion_detected := 1 } 1 0 0 true
        = { led1 := 1023, led2 := 66, led3 := 66 } :=
  ⟨(controlLights_unknown_override
      { State.init with user_override := 3, motion_detected := 1 } 1 0 0 true
      (by decide) (by decide) (by decide)).1, by decide⟩

/-! ## Facts about the override read -/

/-- C9: after `readUserOverride`, `user_override` is the value read when the status
is 200 and the prior value otherwise, and every other global is unchanged. -/
theorem readUserOverride_spec (st : State) (v c : Int) :
    (readUserOverride st v c).user_override = (if c = 200 then v else st.user_override)
      ∧ (readUserOverride st v c).ambience = st.ambience
      ∧ (readUserOverride st v c).motion_detected = st.motion_detected
      ∧ (readUserOverride st v c).ldr_min = st.ldr_min
      ∧ (readUserOverride st v c).ldr_max = st.ldr_max
      ∧ (readUserOverride st v c).calibration_done = st.calibration_done
      ∧ (readUserOverride st v c).lastUpdate = st.lastUpdate := by
  unfold readUserOverride
  split <;> simp

/-! ## Darkness classification -/

/-- C5: in a cycle `ambience = 1024 - analogRead(ldr)` and `is_dark` holds exactly
when `ambience > current_threshold`; for a fixed threshold `is_dark` is monotone in
the ambience, false up to and including the threshold and true above it; and it
does not depend on what earlier cycles left in the other globals. -/
theorem isDark_threshold (st : State) (inp : CycleInput) (t a b : Int) (amb mot ovr upd : Int) :
    (loopSense st inp).1.ambience = 1024 - inp.ldr
      ∧ (loopSense st inp).2.current_threshold = currentThreshold st
      ∧ ((loopSense st inp).2.is_dark = true ↔ 1024 - inp.ldr > currentThreshold st)
      ∧ (a ≤ b → isDark a t = true → isDark b t = true)
      ∧ (a ≤ t → isDark a t = false)
      ∧ isDark t t = false
      ∧ (a > t → isDark a t = true)
      ∧ (loopSense { st with ambience := amb, motion_detected := mot, user_override := ovr,
                             lastUpdate := upd } inp).2.is_dark
          = (loopSense st inp).2.is_dark := by
  refine ⟨rfl, rfl, ?_, ?_, ?_, ?_, ?_, rfl⟩
  · simp [loopSense, isDark]
  · intro hab ha
    simp only [isDark, decide_eq_true_eq] at ha ⊢
    omega
  · intro hat
    simp only [isDark, decide_eq_false_iff_not]
    omega
  · simp [isDark]
  · intro hat
    simp only [isDark, decide_eq_true_eq]
    omega

/-- Instance of C5 at threshold 340: ambience 340 is not dark, 341 is, and so
is every larger value such as 900. -/
theorem isDark_threshold_witness :
    isDark 340 340 = false ∧ isDark 341 340 = true ∧ isDark 900 340 = true :=
  ⟨(isDark_threshold State.init
      { ir1 := 1, ir2 := 1, ir3 := 1, ldr := 0, connected := false, now := 0,
        writeStatus := 0, readValue := 0, readStatus := 0, nowAfter := 0 }
      340 340 900 0 0 0 0).2.2.2.2.2.1,
   by decide,
   (isDark_threshold State.init
      { ir1 := 1, ir2 := 1, ir3 := 1, ldr := 0, connected := false, now := 0,
        writeStatus := 0, readValue := 0, readStatus := 0, nowAfter := 0 }
      340 341 900 0 0 0 0).2.2.2.1 (by decide) (by decide)⟩

/-! ## Telemetry gate -/

/-- C7, as the code has it: the push of (ambience, motion_detected, user_override) and
the override read are performed, both or neither, exactly when the station is
connected and the unsigned difference `millis() - lastUpdate` is strictly
greater than 20000; at a difference of exactly 20000 nothing is sent, and
without connectivity nothing is sent and `user_override` and `lastUpdate` keep
their values. -/
theorem telemetry_gate (st : State) (inp : CycleInput) :
    ((loop st inp).2.any Event.isPush = true
        ↔ inp.connected = true ∧ elapsed inp.now st.lastUpdate > 20000)
      ∧ ((loop st inp).2.any Event.isRead = true
        ↔ inp.connected = true ∧ elapsed inp.now st.lastUpdate > 20000)
      ∧ (loop st inp).2.drop 3
          = (if inp.connected = true ∧ elapsed inp.now st.lastUpdate > 20000 then
              [Event.writeFields (1024 - inp.ldr) (loopSense st inp).1.motion_detected
                 st.user_override, Event.readIntField 3]
             else [])
      ∧ (elapsed inp.now st.lastUpdate = 20000 →
          (loop st inp).2.any Event.isPush = false ∧ (loop st inp).2.any Event.isRead = false)
      ∧ (inp.connected = false →
          (loop st inp).2.any Event.isPush = false ∧ (loop st inp).2.any Event.isRead = false
            ∧ (loop st inp).1.user_override = st.user_override
            ∧ (loop st inp).1.lastUpdate = st.lastUpdate)
      ∧ (st.lastUpdate ≤ inp.now → inp.now - st.lastUpdate < 4294967296 →
          elapsed inp.now st.lastUpdate = inp.now - st.lastUpdate)
      ∧ updateInterval = 20000 := by
  refine ⟨?_, ?_, ?_, ?_, ?_, ?_, rfl⟩
  · rw [loop_any_isPush, telemetryDue_iff]
  · rw [loop_any_isRead, telemetryDue_iff]
  · rw [loop_events_drop]
    simp only [← telemetryDue_iff]
  · intro h
    have hd : telemetryDue st inp = false := by simp [telemetryDue, h, updateInterval]
    rw [loop_any_isPush, loop_any_isRead]
    exact ⟨hd, hd⟩
  · intro h
    have hd : telemetryDue st inp = false := by simp [telemetryDue, h]
    rw [loop_any_isPush, loop_any_isRead, loop_state_of_not_due st inp hd]
    exact ⟨hd, hd, rfl, rfl⟩
  · intro h1 h2
    unfold elapsed ULONG_MOD
    exact Int.emod_eq_of_lt (by omega) h2

/-- Instance of the gate: connected and 20001 ms after the last update, the push and
the read are both performed; a cycle without connectivity with the same clock
sends nothing and keeps `user_override` and `lastUpdate`. -/
theorem telemetry_gate_witness :
    (loop State.init
        { ir1 := 1, ir2 := 1, ir3 := 1, ldr := 500, connected := true, now := 20001,
          writeStatus := 200, readValue := 2, readStatus := 200, nowAfter := 20300 }).2.drop 3
        = [Event.writeFields 524 0 0, Event.readIntField 3]
      ∧ (loop State.init
        { ir1 := 1, ir2 := 1, ir3 := 1, ldr := 500, connected := false, now := 20001,
          writeStatus := 200, readValue := 2, readStatus := 200, nowAfter := 20300 }).1.lastUpdate
        = 0 :=
  ⟨(telemetry_gate State.init
      { ir1 := 1, ir2 := 1, ir3 := 1, ldr := 500, connected := true, now := 20001,
        writeStatus := 200, readValue := 2, readStatus := 200, nowAfter := 20300 }).2.2.1,
   ((telemetry_gate State.init
      { ir1 := 1, ir2 := 1, ir3 := 1, ldr := 500, connected := false, now := 20001,
        writeStatus := 200, readValue := 2, readStatus := 200, nowAfter := 20300 }).2.2.2.2.1
      rfl).2.2.2⟩

/-- C7 as stated fails: connected, `lastUpdate = 0` and `millis() = 20000`, so that
`now - last_update >= interval` holds, yet neither the push nor the read is
performed. -/
theorem telemetry_gate_counterexample :
    (20000 : Int) - State.init.lastUpdate ≥ updateInterval
      ∧ (loop State.init
          { ir1 := 1, ir2 := 1, ir3 := 1, ldr := 500, connected := true, now := 20000,
            writeStatus := 200, readValue := 2, readStatus := 200, nowAfter := 20300 }).2.any
          Event.isPush = false
      ∧ (loop State.init
          { ir1 := 1, ir2 := 1, ir3 := 1, ldr := 500, connected := true, now := 20000,
            writeStatus := 200, readValue := 2, readStatus := 200, nowAfter := 20300 }).2.any
          Event.isRead = false := by
  decide

/-- C8: whenever a cycle performs the push, `lastUpdate` afterwards is the value of
`millis()` taken after the two network calls, whatever the push status, the
read status and the value read; and in every later cycle whose clock is at most
20000 ms past that value neither the push nor the read is performed. -/
theorem lastUpdate_reset (st : State) (inp : CycleInput)
    (h : (loop st inp).2.any Event.isPush = true) :
    (loop st inp).1.lastUpdate = inp.nowAfter
      ∧ ∀ later : List CycleInput,
          (∀ l ∈ later, elapsed l.now inp.nowAfter ≤ updateInterval) →
          (runCycles (loop st inp).1 later).2.any Event.isPush = false
            ∧ (runCycles (loop st inp).1 later).2.any Event.isRead = false := by
  rw [loop_any_isPush] at h
  have hlast : (loop st inp).1.lastUpdate = inp.nowAfter := by
    rw [loop_state_of_due st inp h]
  refine ⟨hlast, ?_⟩
  intro later hle
  obtain ⟨h1, h2, _⟩ := runCycles_quiet later (loop st inp).1 (by rw [hlast]; exact hle)
  exact ⟨h1, h2⟩

/-- Instance of C8 with a failed push (status 404) and a failed read (status 500):
`lastUpdate` becomes 20300 and the cycles at 21300 and 40300 send nothing. -/
theorem lastUpdate_reset_witness :
    (loop State.init
        { ir1 := 1, ir2 := 1, ir3 := 1, ldr := 500, connected := true, now := 20001,
          writeStatus := 404, readValue := 0, readStatus := 500, nowAfter := 20300 }).1.lastUpdate
        = 20300
      ∧ (runCycles (loop State.init
          { ir1 := 1, ir2 := 1, ir3 := 1, ldr := 500, connected := true, now := 20001,
            writeStatus := 404, readValue := 0, readStatus := 500, nowAfter := 20300 }).1
          [{ ir1 := 1, ir2 := 1, ir3 := 1, ldr := 500, connected := true, now := 21300,
             writeStatus := 200, readValue := 1, readStatus := 200, nowAfter := 21600 },
           { ir1 := 0, ir2 := 1, ir3 := 1, ldr := 500, connected := true, now := 40300,
             writeStatus := 200, readValue := 1, readStatus := 200, nowAfter := 40600 }]).2.any
          Event.isPush = false :=
  have hw := lastUpdate_reset State.init
    { ir1 := 1, ir2 := 1, ir3 := 1, ldr := 500, connected := true, now := 20001,
      writeStatus := 404, readValue := 0, readStatus := 500, nowAfter := 20300 } (by decide)
  ⟨hw.1,
   (hw.2 [{ ir1 := 1, ir2 := 1, ir3 := 1, ldr := 500, connected := true, now := 21300,
            writeStatus := 200, readValue := 1, readStatus := 200, nowAfter := 21600 },
          { ir1 := 0, ir2 := 1, ir3 := 1, ldr := 500, connected := true, now := 40300,
            writeStatus := 200, readValue := 1, readStatus := 200, nowAfter := 40600 }]
      (by decide)).1⟩

/-! ## Override after a telemetry step -/

/-- C6, as the code has it: in a cycle that performs the push and gets a status
other than 200, `updateThingSpeak` itself changes no global, the override read
is performed all the same, and `user_override` afterwards is the value read
when the read status is 200 and the prior value otherwise. -/
theorem override_after_failed_push (st : State) (inp : CycleInput)
    (hpush : (loop st inp).2.any Event.isPush = true) (_hfail : inp.writeStatus ≠ 200) :
    (updateThingSpeak st inp.writeStatus).1 = st
      ∧ (loop st inp).2.any Event.isRead = true
      ∧ (loop st inp).1.user_override
          = (if inp.readStatus = 200 then inp.readValue else st.user_override)
      ∧ (inp.readStatus ≠ 200 → (loop st inp).1.user_override = st.user_override) := by
  rw [loop_any_isPush] at hpush
  have hstate := loop_state_of_due st inp hpush
  refine ⟨by simp [updateThingSpeak], by rw [loop_any_isRead]; exact hpush, ?_, ?_⟩
  · rw [hstate]
    simp only [readUserOverride, loopSense]
    split <;> rfl
  · intro hr
    rw [hstate]
    simp [readUserOverride, loopSense, hr]

/-- Instance of the amended C6: push status 404 and read status 500 leave
`user_override = 0` in place. -/
theorem override_after_failed_push_witness :
    (loop State.init
        { ir1 := 1, ir2 := 1, ir3 := 1, ldr := 500, connected := true, now := 20001,
          writeStatus := 404, readValue := 1, readStatus := 500, nowAfter := 20300 }).1.user_override
      = 0 :=
  (override_after_failed_push State.init
      { ir1 := 1, ir2 := 1, ir3 := 1, ldr := 500, connected := true, now := 20001,
        writeStatus := 404, readValue := 1, readStatus := 500, nowAfter := 20300 }
      (by decide) (by decide)).2.2.2 (by decide)

/-- C6 as stated fails: the push returns 404, the read that follows returns value 1
with status 200, and `user_override` goes from 0 to 1. -/
theorem override_after_failed_push_counterexample :
    (loop State.init
        { ir1 := 1, ir2 := 1, ir3 := 1, ldr := 500, connected := true, now := 20001,
          writeStatus := 404, readValue := 1, readStatus := 200, nowAfter := 20300 }).2.any
        Event.isPush = true
      ∧ (404 : Int) ≠ 200
      ∧ State.init.user_override = 0
      ∧ (loop State.init
        { ir1 := 1, ir2 := 1, ir3 := 1, ldr := 500, connected := true, now := 20001,
          writeStatus := 404, readValue := 1, readStatus := 200, nowAfter := 20300 }).1.user_override
        = 1 := by
  decide

end StreetLight
